import Mathlib

/-!
Verification of `src/matrix_addition.js` (gavi/webgpu), a WebGPU program that
adds two 5000×5000 float32 matrices on the GPU and reads the result back.

The embedding follows the source: the constants `rows`, `cols`, `BUFFER_SIZE`
(lines 1-5), the compute shader body (lines 8-31), the hardcoded input
matrices (lines 62-63), buffer creation (lines 65-86), the recorded command
sequence (lines 145-168) and the readback (lines 171-181). Element values are
modelled as rationals: every value in play (1.0, 2.0, their sum 3.0, and 0.0)
is exactly representable in IEEE-754 binary32 and the single addition incurs
no rounding, so rational arithmetic coincides with the f32 arithmetic the
kernel performs on these inputs. Device buffers are modelled as functions
from element index to value; WebGPU zero-initializes newly created buffers,
so the output buffer starts as the constant-0 function.
-/

namespace MatrixAddition

/-- Line 1 of the source: `const rows = 5000`. -/
def rows : Nat := 5000

/-- Line 2 of the source: `const cols = 5000`. -/
def cols : Nat := 5000

/-- Byte length of a `Float32Array` holding `n` elements: 4 bytes per element. -/
def float32ByteLength (n : Nat) : Nat := 4 * n

/-- Line 5: `const BUFFER_SIZE = new Float32Array(rows*cols).byteLength` — the
BYTE length of the matrices, i.e. 100,000,000. -/
def BUFFER_SIZE : Nat := float32ByteLength (rows * cols)

/-- The number of matrix elements, `rows * cols` = 25,000,000. -/
def totalElements : Nat := rows * cols

/-- Line 16 of the shader: `@workgroup_size(64)` — 64 lanes per workgroup. -/
def workgroupSize : Nat := 64

/-- Lines 24-29 of the shader, the body run by one lane with global id `gid`:
`if (global_id.x >= bound) return;` then
`output[global_id.x] = input1[global_id.x] + input2[global_id.x]`.
The bound is whatever was template-substituted into the shader text. -/
def shaderLane (bound : Nat) (input1 input2 : Nat → ℚ) (output : Nat → ℚ)
    (gid : Nat) : Nat → ℚ :=
  if gid ≥ bound then output
  else Function.update output gid (input1 gid + input2 gid)

/-- `passEncoder.dispatchWorkgroups(groups)` with the shader above: lanes
`0 .. groups*64 - 1` each run `shaderLane`. Each admitted lane writes only its
own index, so the lanes are independent and a sequential left fold over the
lane ids models the parallel execution exactly. -/
def dispatchWorkgroups (groups bound : Nat) (input1 input2 : Nat → ℚ)
    (output : Nat → ℚ) : Nat → ℚ :=
  (List.range (groups * workgroupSize)).foldl
    (fun out gid => shaderLane bound input1 input2 out gid) output

/-- Line 62: `const matrixA = new Float32Array(rows*cols).map((_,i) => 1)` —
every element is 1.0. -/
def matrixA : Nat → ℚ := fun _ => 1

/-- Line 63: `const matrixB = new Float32Array(rows*cols).map((_,i) => 2)` —
every element is 2.0. -/
def matrixB : Nat → ℚ := fun _ => 2

/-- Line 153: `passEncoder.dispatchWorkgroups(1)` — the code dispatches a
single workgroup, regardless of the problem size. -/
def dispatchedGroups : Nat := 1

/-- Line 25: the guard bound compiled into the shader text is the
template-substituted `${BUFFER_SIZE}`, a byte count. -/
def guardBound : Nat := BUFFER_SIZE

/-- The output storage buffer before the dispatch: WebGPU zero-initializes
newly created buffers (line 78 creates it without writing any data). -/
def outputInitial : Nat → ℚ := fun _ => 0

/-- The device pipeline as a function of the two input matrices: the code's
fixed dispatch of `dispatchedGroups` workgroups with guard `guardBound` over a
zero-initialized output buffer. -/
def runPipeline (a b : Nat → ℚ) : Nat → ℚ :=
  dispatchWorkgroups dispatchedGroups guardBound a b outputInitial

/-- Contents of the output buffer after the submitted dispatch completes, for
the program's hardcoded inputs. -/
def outputAfterDispatch : Nat → ℚ := runPipeline matrixA matrixB

/-- Lines 159-181: the output buffer is copied into the staging buffer
(`BUFFER_SIZE` bytes from offset 0), mapped, and sliced into the host array.
Index `i < totalElements` of the host array is element `i` of the output
buffer. -/
def readbackData (i : Nat) : ℚ := outputAfterDispatch i

/-- Buffer usage capabilities appearing in the source (lines 65-86). -/
inductive BufferUsage where
  | STORAGE
  | COPY_SRC
  | COPY_DST
  | MAP_READ
  deriving DecidableEq

/-- A `device.createBuffer` descriptor: byte size and usage flags. -/
structure BufferDesc where
  size : Nat
  usage : List BufferUsage
  deriving DecidableEq

/-- Lines 65-68: the first input buffer. -/
def input1Desc : BufferDesc :=
  ⟨BUFFER_SIZE, [BufferUsage.STORAGE, BufferUsage.COPY_DST]⟩

/-- Lines 71-74: the second input buffer. -/
def input2Desc : BufferDesc :=
  ⟨BUFFER_SIZE, [BufferUsage.STORAGE, BufferUsage.COPY_DST]⟩

/-- Lines 78-81: the output buffer. -/
def outputDesc : BufferDesc :=
  ⟨BUFFER_SIZE, [BufferUsage.STORAGE, BufferUsage.COPY_SRC]⟩

/-- Lines 83-86: the staging buffer. -/
def stagingBufferDesc : BufferDesc :=
  ⟨BUFFER_SIZE, [BufferUsage.MAP_READ, BufferUsage.COPY_DST]⟩

/-- The device-facing steps `init` performs between creating the command
encoder and submission (lines 145-168). -/
inductive HostStep where
  | setPipeline
  | setBindGroup (slot : Nat)
  | dispatchCall (groups : Nat)
  | endPass
  | copyBufferToBuffer (srcOffset dstOffset size : Nat)
  | submit
  deriving DecidableEq

/-- Lines 151-168 in source order: `setPipeline`, `setBindGroup(0, ...)`,
`dispatchWorkgroups(1)`, `passEncoder.end()`, `copyBufferToBuffer(output, 0,
stagingBuffer, 0, BUFFER_SIZE)`, then `device.queue.submit(...)`. -/
def initCommandTrace : List HostStep :=
  [HostStep.setPipeline, HostStep.setBindGroup 0, HostStep.dispatchCall 1,
   HostStep.endPass, HostStep.copyBufferToBuffer 0 0 BUFFER_SIZE,
   HostStep.submit]

/-- Failure taxonomy of the public operation (spec §7). -/
inductive AddError where
  | DimensionMismatch
  | DeviceUnavailable
  | MapFailed
  deriving DecidableEq

/-- Device work items, used to record whether any device interaction happened
before a failure. -/
inductive DeviceOp where
  | allocateBuffer (size : Nat)
  | upload (size : Nat)
  | dispatchOp (groups : Nat)
  | readback (size : Nat)
  deriving DecidableEq

/-- Modelled from the spec: the public operation `addMatrices(a, b, rows,
cols)` of spec §6 is absent from `src/matrix_addition.js` — `init` hardcodes
its inputs at lines 62-63 and validates nothing. Per §6 and §8 the operation
fails with `DimensionMismatch` when `a.length ≠ rows×cols` or
`b.length ≠ rows×cols`, performing no device work before the failure;
otherwise it allocates the four buffers, uploads the inputs, dispatches
`ceil(totalElements / laneCount)` groups with an element-count guard (§4.3,
§4.5) and reads the summed matrix back. The second component records the
device operations performed, in order. -/
def addMatrices (a b : List ℚ) (r c : Nat) :
    Except AddError (List ℚ) × List DeviceOp :=
  if a.length ≠ r * c ∨ b.length ≠ r * c then
    (Except.error AddError.DimensionMismatch, [])
  else
    let bytes := float32ByteLength (r * c)
    let groups := (r * c + workgroupSize - 1) / workgroupSize
    let resultFn := dispatchWorkgroups groups (r * c)
      (fun i => a.getD i 0) (fun i => b.getD i 0) (fun _ => 0)
    (Except.ok ((List.range (r * c)).map resultFn),
     [DeviceOp.allocateBuffer bytes, DeviceOp.upload bytes,
      DeviceOp.allocateBuffer bytes, DeviceOp.upload bytes,
      DeviceOp.allocateBuffer bytes, DeviceOp.allocateBuffer bytes,
      DeviceOp.dispatchOp groups, DeviceOp.readback bytes])


/-- An index at or beyond the dispatched lane range is never written: the fold
leaves the initial buffer contents there. -/
lemma foldLane_untouched (bound : Nat) (a b : Nat → ℚ) (n : Nat)
    (out : Nat → ℚ) (i : Nat) (hi : n ≤ i) :
    (List.range n).foldl (fun o g => shaderLane bound a b o g) out i = out i := by
  induction n generalizing out with
  | zero => simp
  | succ n ih =>
    rw [List.range_succ, List.foldl_append, List.foldl_cons, List.foldl_nil]
    unfold shaderLane
    split
    · exact ih out (by omega)
    · rw [Function.update_noteq (by omega)]
      exact ih out (by omega)

/-- A lane index inside the dispatched range and below the guard bound ends up
holding the elementwise sum. -/
lemma foldLane_written (bound : Nat) (a b : Nat → ℚ) (n : Nat)
    (out : Nat → ℚ) (i : Nat) (hi : i < n) (hb : i < bound) :
    (List.range n).foldl (fun o g => shaderLane bound a b o g) out i
      = a i + b i := by
  induction n generalizing out with
  | zero => omega
  | succ n ih =>
    rw [List.range_succ, List.foldl_append, List.foldl_cons, List.foldl_nil]
    by_cases h : i < n
    · unfold shaderLane
      split
      · exact ih out h
      · rw [Function.update_noteq (by omega)]
        exact ih out h
    · have hin : i = n := by omega
      subst hin
      unfold shaderLane
      rw [if_neg (by omega)]
      simp

/-- Specialization to `dispatchWorkgroups`: covered, admitted lanes. -/
lemma dispatchWorkgroups_eval_lt (groups bound : Nat) (a b out : Nat → ℚ)
    (i : Nat) (hi : i < groups * workgroupSize) (hb : i < bound) :
    dispatchWorkgroups groups bound a b out i = a i + b i :=
  foldLane_written bound a b _ out i hi hb

/-- Specialization to `dispatchWorkgroups`: indices beyond the lane range. -/
lemma dispatchWorkgroups_eval_ge (groups bound : Nat) (a b out : Nat → ℚ)
    (i : Nat) (hi : groups * workgroupSize ≤ i) :
    dispatchWorkgroups groups bound a b out i = out i :=
  foldLane_untouched bound a b _ out i hi


/-- Claim C1: the spec demands `result[i] = A[i] + B[i]` for every index
`i < rows*cols`; the code dispatches one 64-lane workgroup, so index 64
(well inside the matrix) is never computed: the readback holds the initial 0
there while `A[64] + B[64] = 3 ≠ 0`. This evaluates the code at the failing
input. -/
theorem C1_elementwise_sum_fails_at_64 :
    64 < totalElements ∧
    matrixA 64 + matrixB 64 = 3 ∧
    readbackData 64 = 0 ∧
    (0 : ℚ) ≠ 3 := by
  refine ⟨by decide, by norm_num [matrixA, matrixB], ?_, by norm_num⟩
  have h : dispatchWorkgroups dispatchedGroups guardBound matrixA matrixB
      outputInitial 64 = outputInitial 64 :=
    dispatchWorkgroups_eval_ge dispatchedGroups guardBound matrixA matrixB
      outputInitial 64 (by decide)
  exact h

/-- Claim C2: the spec demands `groupCount = ceil(totalElements / 64)` so that
the grid covers every element; the code dispatches a fixed single group, whose
64 lanes fall short of the 25,000,000 elements, and 1 is not the ceiling
390,625. -/
theorem C2_dispatch_grid_undersized :
    dispatchedGroups * workgroupSize < rows * cols ∧
    dispatchedGroups ≠ (totalElements + workgroupSize - 1) / workgroupSize := by
  decide

/-- Claim C3: the spec demands the shader guard compare against the element
count; the code compares against `BUFFER_SIZE`, the byte count, which is 4×
the element count: the lane with global index `totalElements` (the first
out-of-range element index) passes the guard and performs a write, where the
claim says it must return without writing. -/
theorem C3_guard_bound_is_byte_count :
    guardBound = 4 * totalElements ∧
    totalElements < guardBound ∧
    shaderLane guardBound matrixA matrixB outputInitial totalElements
        totalElements
      = matrixA totalElements + matrixB totalElements ∧
    matrixA totalElements + matrixB totalElements
      ≠ outputInitial totalElements := by
  refine ⟨rfl, by decide, ?_, by norm_num [matrixA, matrixB, outputInitial]⟩
  unfold shaderLane
  rw [if_neg (by decide)]
  simp

/-- Claim C4: the spec says no partial result is ever returned; the code's
successful run returns an array whose prefix (indices below 64) holds the
computed sums while index 64, still inside the matrix, does not hold its
sum. -/
theorem C4_partial_result_returned :
    readbackData 63 = matrixA 63 + matrixB 63 ∧
    readbackData 64 ≠ matrixA 64 + matrixB 64 ∧
    64 < totalElements := by
  refine ⟨?_, ?_, by decide⟩
  · exact dispatchWorkgroups_eval_lt dispatchedGroups guardBound matrixA
      matrixB outputInitial 63 (by decide) (by decide)
  · have h : dispatchWorkgroups dispatchedGroups guardBound matrixA matrixB
        outputInitial 64 = outputInitial 64 :=
      dispatchWorkgroups_eval_ge dispatchedGroups guardBound matrixA matrixB
        outputInitial 64 (by decide)
    show dispatchWorkgroups dispatchedGroups guardBound matrixA matrixB
        outputInitial 64 ≠ matrixA 64 + matrixB 64
    rw [h]
    norm_num [outputInitial, matrixA, matrixB]

/-- Claim C5: whenever `a.length ≠ rows×cols` or `b.length ≠ rows×cols`, the
public operation fails with `DimensionMismatch` and the list of device
operations performed is empty — no allocation, upload, dispatch or readback
precedes the failure. (The operation is modelled from the spec, §6.) -/
theorem C5_dimension_mismatch_no_device_work (a b : List ℚ) (r c : Nat)
    (h : a.length ≠ r * c ∨ b.length ≠ r * c) :
    addMatrices a b r c = (Except.error AddError.DimensionMismatch, []) := by
  unfold addMatrices
  rw [if_pos h]

/-- Witness for C5: a 1-element matrix against a declared 2×2 shape fails with
`DimensionMismatch` and an empty device-operation list. -/
theorem C5_dimension_mismatch_no_device_work_witness :
    addMatrices [1] [1, 2, 3, 4] 2 2
      = (Except.error AddError.DimensionMismatch, []) :=
  C5_dimension_mismatch_no_device_work [1] [1, 2, 3, 4] 2 2
    (Or.inl (by decide))

/-- Claim C6: the recorded command sequence is exactly: set pipeline, set
bindings, dispatch, end recording, record the output→staging copy, and only
then submit — six steps in this order and nothing else. -/
theorem C6_recording_order :
    initCommandTrace.length = 6 ∧
    initCommandTrace.get? 0 = some HostStep.setPipeline ∧
    initCommandTrace.get? 1 = some (HostStep.setBindGroup 0) ∧
    initCommandTrace.get? 2 = some (HostStep.dispatchCall 1) ∧
    initCommandTrace.get? 3 = some HostStep.endPass ∧
    initCommandTrace.get? 4
      = some (HostStep.copyBufferToBuffer 0 0 BUFFER_SIZE) ∧
    initCommandTrace.get? 5 = some HostStep.submit := by
  decide

/-- Claim C7: all four buffers (Input1, Input2, Output, Staging) are created
with the same byte length, `rows × cols × 4`, for the program's
`rows = cols = 5000`. -/
theorem C7_buffer_sizes_uniform :
    input1Desc.size = rows * cols * 4 ∧
    input2Desc.size = rows * cols * 4 ∧
    outputDesc.size = rows * cols * 4 ∧
    stagingBufferDesc.size = rows * cols * 4 ∧
    rows = 5000 ∧ cols = 5000 := by
  decide

/-- Claim C8: the pipeline is deterministic: two runs on equal inputs produce
identical outputs. Every lane writes only its own index, so the modelled
execution is a function of the inputs alone. -/
theorem C8_deterministic (a1 b1 a2 b2 : Nat → ℚ)
    (ha : a1 = a2) (hb : b1 = b2) :
    runPipeline a1 b1 = runPipeline a2 b2 := by
  rw [ha, hb]

/-- Witness for C8: the program's own run compared with a rerun on the same
inputs. -/
theorem C8_deterministic_witness :
    runPipeline matrixA matrixB = runPipeline matrixA matrixB :=
  C8_deterministic matrixA matrixB matrixA matrixB rfl rfl

/-- Claim C9: on the program's run (A all 1.0, B all 2.0), the host array
holds 3.0 at every index below 64 and 0.0 at every index from 64 up to
25,000,000: exactly one 64-lane workgroup runs, and the untouched remainder
of the zero-initialized output buffer is copied back unchanged. -/
theorem C9_readback_values (i : Nat) :
    (i < 64 → readbackData i = 3) ∧
    (64 ≤ i → i < 25000000 → readbackData i = 0) := by
  constructor
  · intro h
    show dispatchWorkgroups dispatchedGroups guardBound matrixA matrixB
        outputInitial i = 3
    rw [dispatchWorkgroups_eval_lt dispatchedGroups guardBound matrixA matrixB
        outputInitial i
        (by unfold dispatchedGroups workgroupSize; omega)
        (by unfold guardBound BUFFER_SIZE float32ByteLength rows cols; omega)]
    norm_num [matrixA, matrixB]
  · intro h _
    show dispatchWorkgroups dispatchedGroups guardBound matrixA matrixB
        outputInitial i = 0
    rw [dispatchWorkgroups_eval_ge dispatchedGroups guardBound matrixA matrixB
        outputInitial i (by unfold dispatchedGroups workgroupSize; omega)]
    rfl

/-- Witness for C9: index 5 reads 3.0 and index 100 reads 0.0. -/
theorem C9_readback_values_witness :
    readbackData 5 = 3 ∧ readbackData 100 = 0 :=
  ⟨(C9_readback_values 5).1 (by decide),
   (C9_readback_values 100).2 (by decide) (by decide)⟩

/-- Claim C10: under the actual dispatch of one 64-lane workgroup every
executed lane has global index below 64, hence far below the guard bound
100,000,000, so the early-return branch is unreachable: every executed lane
falls through to the write. -/
theorem C10_early_return_unreachable (gid : Nat) (a b out : Nat → ℚ)
    (hg : gid < dispatchedGroups * workgroupSize) :
    gid < 64 ∧
    ¬ gid ≥ guardBound ∧
    shaderLane guardBound a b out gid
      = Function.update out gid (a gid + b gid) := by
  have h64 : gid < 64 := by
    unfold dispatchedGroups workgroupSize at hg
    omega
  have hnb : ¬ gid ≥ guardBound := by
    unfold guardBound BUFFER_SIZE float32ByteLength rows cols
    omega
  refine ⟨h64, hnb, ?_⟩
  unfold shaderLane
  rw [if_neg hnb]

/-- Witness for C10: the last lane of the single workgroup, gid = 63, on the
program's buffers. -/
theorem C10_early_return_unreachable_witness :
    63 < 64 ∧
    ¬ 63 ≥ guardBound ∧
    shaderLane guardBound matrixA matrixB outputInitial 63
      = Function.update outputInitial 63 (matrixA 63 + matrixB 63) :=
  C10_early_return_unreachable 63 matrixA matrixB outputInitial (by decide)

end MatrixAddition
